import Mathlib

/-
Formal model of the millama draft-orchestration engine.

The definitions below are a shallow embedding of the Rust sources:
  src/llm.rs   - generation client with ordered model fallback
  src/main.rs  - orchestration state, draft pipeline, approval handlers,
                 debounce scheduler
External services (the generation backend, the bot control channel and the
messaging network client) are modelled as oracles: each network call is
represented by the response the service would give, and the side effects the
handlers perform are recorded in an explicit action trace.
-/

/-! ### Generic finite-map helpers (model of std::collections::HashMap) -/

/-- First-match lookup in an association list, the model of HashMap::get. -/
def lookupK {K V : Type} [DecidableEq K] : List (K × V) → K → Option V
  | [], _ => none
  | (k', v) :: t, k => if k' = k then some v else lookupK t k

/-- Drop every binding of a key, the model of HashMap::remove on the stored
map (association lists built by insertK never hold duplicate keys). -/
def eraseK {K V : Type} [DecidableEq K] (m : List (K × V)) (k : K) : List (K × V) :=
  m.filter fun p => decide (p.1 ≠ k)

/-- Overwriting insert, the model of HashMap::insert. -/
def insertK {K V : Type} [DecidableEq K] (m : List (K × V)) (k : K) (v : V) : List (K × V) :=
  (k, v) :: eraseK m k

theorem lookupK_insertK_self {K V : Type} [DecidableEq K] (m : List (K × V)) (k : K) (v : V) :
    lookupK (insertK m k v) k = some v := by
  simp [insertK, lookupK]

theorem lookupK_eraseK_self {K V : Type} [DecidableEq K] (m : List (K × V)) (k : K) :
    lookupK (eraseK m k) k = none := by
  induction m with
  | nil => rfl
  | cons p t ih =>
    by_cases h : p.1 = k
    · simpa [eraseK, h] using ih
    · simpa [eraseK, lookupK, h] using ih

instance {ε α : Type} [DecidableEq ε] [DecidableEq α] : DecidableEq (Except ε α) := fun a b =>
  match a, b with
  | .ok x, .ok y =>
    if h : x = y then isTrue (by rw [h]) else isFalse (fun hh => h (by injection hh))
  | .error x, .error y =>
    if h : x = y then isTrue (by rw [h]) else isFalse (fun hh => h (by injection hh))
  | .ok _, .error _ => isFalse (fun hh => by injection hh)
  | .error _, .ok _ => isFalse (fun hh => by injection hh)

/-! ### String helpers (models of the str operations used by main.rs) -/

/-- Model of str::starts_with. -/
def strStartsWith (s p : String) : Bool := p.data.isPrefixOf s.data

/-- Model of taking the suffix after a matched literal of n characters. -/
def strDrop (s : String) (n : Nat) : String := ⟨s.data.drop n⟩

def digitVal (c : Char) : Option Nat :=
  if '0' ≤ c ∧ c ≤ '9' then some (c.toNat - '0'.toNat) else none

def parseNatGo : List Char → Nat → Option Nat
  | [], acc => some acc
  | c :: t, acc =>
    match digitVal c with
    | none => none
    | some d => parseNatGo t (acc * 10 + d)

/-- Model of str::parse::<i64>: an optional sign followed by decimal digits. -/
def parseIntStr (s : String) : Option Int :=
  match s.data with
  | [] => none
  | '-' :: rest => if rest = [] then none else (parseNatGo rest 0).map (fun n => -(n : Int))
  | cs => (parseNatGo cs 0).map (fun n => (n : Int))

theorem isPrefixOf_append (a b : List Char) : a.isPrefixOf (a ++ b) = true := by
  induction a with
  | nil => simp [List.isPrefixOf]
  | cons c t ih => simp [List.isPrefixOf, ih]

theorem strStartsWith_append (p s : String) : strStartsWith (p ++ s) p = true := by
  simp [strStartsWith, String.data_append, isPrefixOf_append]

/-! ### src/llm.rs : generation client with ordered model fallback -/

/-- Role/content pair sent to the generation backend (llm.rs ChatMessage). -/
structure ChatMessage where
  role : String
  content : String
  deriving DecidableEq

/-- Classified failure of one model attempt (the anyhow errors of llm.rs). -/
inductive LlmError where
  | rateLimit (body : String)
  | apiError (status : Nat) (body : String)
  | parseFailure
  | noChoices
  | noModelsConfigured
  | allModelsFailed
  deriving DecidableEq

/-- What the generation backend answers for one model: the HTTP status, the
raw body used in error texts, and the parse of the body into the list of
completion-choice contents (none when the body does not parse). -/
structure BackendResponse where
  status : Nat
  errorBody : String
  parsedChoices : Option (List String)
  deriving DecidableEq

/-- Whether reqwest StatusCode::is_success holds (2xx). -/
def statusIsSuccess (s : Nat) : Bool := decide (200 ≤ s ∧ s < 300)

/-- Whether the response carries at least one completion choice. -/
def hasFirstChoice (r : BackendResponse) : Bool :=
  match r.parsedChoices with
  | some (_ :: _) => true
  | _ => false

/-- One model attempt (llm.rs generate_reply_with_model): non-success status
is an error (429 is only classified differently), otherwise the first choice
content is returned, and a missing or unparsable choice list is an error. -/
def generate_reply_with_model (r : BackendResponse) : Except LlmError String :=
  if 200 ≤ r.status ∧ r.status < 300 then
    match r.parsedChoices with
    | some (c :: _) => .ok c
    | some [] => .error .noChoices
    | none => .error .parseFailure
  else if r.status = 429 then .error (.rateLimit r.errorBody)
  else .error (.apiError r.status r.errorBody)

/-- The fallback loop of generate_reply_with_fallback, threading the
last_error accumulator; it also returns the list of models attempted, in
order. -/
def fallbackLoop (backend : String → BackendResponse) :
    List String → Option LlmError → Except LlmError String × List String
  | [], last => (.error (last.getD .allModelsFailed), [])
  | m :: rest, _ =>
    match generate_reply_with_model (backend m) with
    | .ok t => (.ok t, [m])
    | .error e =>
      let p := fallbackLoop backend rest (some e)
      (p.1, m :: p.2)

/-- llm.rs generate_reply_with_fallback: empty list is a configuration
error, otherwise the models are scanned in order. The second component is
the list of models actually attempted. -/
def generate_reply_with_fallback (backend : String → BackendResponse)
    (models : List String) : Except LlmError String × List String :=
  if models.isEmpty then (.error .noModelsConfigured, [])
  else fallbackLoop backend models none

theorem fallbackLoop_first_success
    (backend : String → BackendResponse) (m : String) (rest : List String) (t : String)
    (hm : generate_reply_with_model (backend m) = .ok t) :
    ∀ pre : List String, (∀ x ∈ pre, (generate_reply_with_model (backend x)).isOk = false) →
    ∀ acc : Option LlmError,
      fallbackLoop backend (pre ++ m :: rest) acc = (.ok t, pre ++ [m]) := by
  intro pre
  induction pre with
  | nil =>
    intro _ acc
    simp [fallbackLoop, hm]
  | cons x xs ih =>
    intro hfail acc
    have hx := hfail x (by simp)
    cases hgx : generate_reply_with_model (backend x) with
    | ok v =>
      rw [hgx] at hx
      simp [Except.isOk, Except.toBool] at hx
    | error e =>
      have hrec := ih (fun y hy => hfail y (by simp [hy])) (some e)
      simp [fallbackLoop, hgx, hrec]

theorem fallbackLoop_all_fail
    (backend : String → BackendResponse) (m : String) (e : LlmError)
    (hm : generate_reply_with_model (backend m) = .error e) :
    ∀ pre : List String, (∀ x ∈ pre, (generate_reply_with_model (backend x)).isOk = false) →
    ∀ acc : Option LlmError,
      fallbackLoop backend (pre ++ [m]) acc = (.error e, pre ++ [m]) := by
  intro pre
  induction pre with
  | nil =>
    intro _ acc
    simp [fallbackLoop, hm]
  | cons x xs ih =>
    intro hfail acc
    have hx := hfail x (by simp)
    cases hgx : generate_reply_with_model (backend x) with
    | ok v =>
      rw [hgx] at hx
      simp [Except.isOk, Except.toBool] at hx
    | error e' =>
      have hrec := ih (fun y hy => hfail y (by simp [hy])) (some e')
      simp [fallbackLoop, hgx, hrec]

/-- Claim C1: for a non-empty ordered model list, models are attempted strictly in
list order; an individual attempt fails exactly when the backend answers a
non-success status or the response holds no first completion choice; the
first successful attempt returns that model text immediately and no later
model is attempted (the attempted-model trace is exactly the failing
leading models followed by the succeeding one). -/
theorem generation_fallback_order :
    (∀ r : BackendResponse,
      (generate_reply_with_model r).isOk = (statusIsSuccess r.status && hasFirstChoice r)) ∧
    (∀ (backend : String → BackendResponse) (pre : List String) (m : String)
        (rest : List String) (t : String),
      (∀ x ∈ pre, (generate_reply_with_model (backend x)).isOk = false) →
      generate_reply_with_model (backend m) = .ok t →
      generate_reply_with_fallback backend (pre ++ m :: rest) = (.ok t, pre ++ [m])) := by
  constructor
  · intro r
    unfold generate_reply_with_model statusIsSuccess hasFirstChoice
    by_cases h : 200 ≤ r.status ∧ r.status < 300
    · cases hc : r.parsedChoices with
      | none => simp [h, hc, Except.isOk, Except.toBool]
      | some cs =>
        cases cs with
        | nil => simp [h, hc, Except.isOk, Except.toBool]
        | cons c cs' => simp [h, hc, Except.isOk, Except.toBool]
    · by_cases h429 : r.status = 429
      · simp [h, h429, Except.isOk, Except.toBool]
      · simp [h, h429, Except.isOk, Except.toBool]
  · intro backend pre m rest t hfail hm
    have : (pre ++ m :: rest).isEmpty = false := by
      cases pre <;> simp
    simp only [generate_reply_with_fallback, this, Bool.false_eq_true, if_false]
    exact fallbackLoop_first_success backend m rest t hm pre hfail none

def c1Backend : String → BackendResponse := fun m =>
  if m = "a" then ⟨500, "boom", none⟩ else ⟨200, "", some ["hello"]⟩

theorem generation_fallback_order_witness :
    generate_reply_with_fallback c1Backend (["a"] ++ "b" :: ["c"]) = (.ok "hello", ["a"] ++ ["b"]) :=
  generation_fallback_order.2 c1Backend ["a"] "b" ["c"] "hello" (by decide) (by decide)

/-- Claim C6: with an empty model list the generation call fails immediately with
the configuration error and attempts no model (the backend is never
contacted); when every model of a non-empty list fails, the surfaced error
is the error of the last model and every model was attempted. -/
theorem generation_fallback_errors :
    (∀ backend : String → BackendResponse,
      generate_reply_with_fallback backend [] = (.error .noModelsConfigured, [])) ∧
    (∀ (backend : String → BackendResponse) (pre : List String) (m : String) (e : LlmError),
      (∀ x ∈ pre, (generate_reply_with_model (backend x)).isOk = false) →
      generate_reply_with_model (backend m) = .error e →
      generate_reply_with_fallback backend (pre ++ [m]) = (.error e, pre ++ [m])) := by
  constructor
  · intro backend
    simp [generate_reply_with_fallback]
  · intro backend pre m e hfail hm
    have : (pre ++ [m]).isEmpty = false := by
      cases pre <;> simp
    simp only [generate_reply_with_fallback, this, Bool.false_eq_true, if_false]
    exact fallbackLoop_all_fail backend m e hm pre hfail none

def c6Backend : String → BackendResponse := fun m =>
  if m = "c" then ⟨429, "slow down", none⟩ else ⟨500, "boom", none⟩

theorem generation_fallback_errors_witness :
    generate_reply_with_fallback c6Backend (["a", "b"] ++ ["c"]) =
      (.error (.rateLimit "slow down"), ["a", "b"] ++ ["c"]) :=
  generation_fallback_errors.2 c6Backend ["a", "b"] "c" (.rateLimit "slow down")
    (by decide) (by decide)

/-! ### Data model of main.rs -/

/-- Kind tag of a grammers PeerId (individual user, basic group, channel). -/
inductive PeerKind where
  | user
  | chat
  | channel
  deriving DecidableEq

/-- Opaque peer identity: a kind tag plus a bare numeric id (grammers
PeerId). Two identities are equal only when kind and id both agree. -/
structure PeerId where
  kind : PeerKind
  bareId : Int
  deriving DecidableEq

/-- grammers PeerId::user. -/
def PeerId.user (i : Int) : PeerId := ⟨PeerKind.user, i⟩

/-- grammers PeerId::chat. -/
def PeerId.chat (i : Int) : PeerId := ⟨PeerKind.chat, i⟩

/-- config.rs TrackedUser. -/
structure TrackedUser where
  id : Int
  name : String
  system_prompt : String
  deriving DecidableEq

/-- config.rs TrackedUser::peer_id, the key under which users_map stores a
tracked user. -/
def TrackedUser.peer_id (u : TrackedUser) : PeerId := PeerId.user u.id

/-- One pending_rephrase entry of BotState: the control chat and message of
the published draft bubble plus the history snapshot used. -/
structure RephraseEntry where
  chatId : Int
  messageId : Int
  history : List ChatMessage
  deriving DecidableEq

/-- The configuration fields the orchestration core reads (config.rs). -/
structure AiConfig where
  models : List String
  base_system_prompt : Option String
  deriving DecidableEq

structure Settings where
  history_limit : Nat
  deriving DecidableEq

structure Config where
  ai : AiConfig
  settings : Settings
  deriving DecidableEq

/-- main.rs BotState: the single mutex-guarded orchestration state. -/
structure BotState where
  pending_tasks : List (PeerId × Nat)
  users : List (PeerId × TrackedUser)
  config : Config
  bot_self_id : Int
  draft_messages : List (String × (Int × String))
  pending_rephrase : List (Int × RephraseEntry)
  deriving DecidableEq

/-- Observable side effects a handler performs, in execution order. -/
inductive BotAction where
  | answeredCallback (id : String)
  | generationCall (systemPrompt : String) (history : List ChatMessage)
  | publishedDraft (chatId : Int) (text : String) (buttons : List (String × String))
  | sentToPeer (targetId : Int) (text : String)
  | editedMessage (chatId messageId : Int) (text : String)
  | sentErrorMessage (chatId : Int) (text : String)
  | abortedHandle (h : Nat)
  | spawnedDebounce (peer : PeerId) (h : Nat)
  | invokedPipeline (peer : PeerId)
  deriving DecidableEq

/-! ### Draft pipeline (main.rs process_ai_draft_with_guidance) -/

/-- One message as fetched from the messaging network: its text and whether
it was sent by the operator (msg.outgoing()). -/
structure FetchedMsg where
  text : String
  outgoing : Bool
  deriving DecidableEq

/-- The role/content tagging of a fetched message (main.rs lines 350-355). -/
def msgToChat (m : FetchedMsg) : ChatMessage :=
  { role := if m.outgoing then "assistant" else "user", content := m.text }

/-- History assembly: iterate the fetched messages (delivered newest-first),
skip empty texts and insert each kept message at position 0, so the buffer
ends up oldest-first. -/
def buildHistory (msgs : List FetchedMsg) : List ChatMessage :=
  msgs.foldl (fun buf m => if m.text = "" then buf else msgToChat m :: buf) []

/-- System prompt built from the optional configured base prompt, the
per-user prompt, and optional rephrase guidance (main.rs lines 366-385). -/
def mkSystemPrompt (base : Option String) (userPrompt : String) (guidance : Option String) : String :=
  (match base with | some b => b ++ "\n\n" | none => "") ++ userPrompt ++
    (match guidance with | some g => "\n\nAdditional guidance: " ++ g | none => "")

/-- The approve callback token, format "approve:<target_id>". -/
def approve_key (targetId : Int) : String := "approve:" ++ toString targetId

/-- The rephrase callback token, format "rephrase:<target_id>". -/
def rephrase_key (targetId : Int) : String := "rephrase:" ++ toString targetId

/-- The reject callback token, format "reject:<target_id>". -/
def reject_key (targetId : Int) : String := "reject:" ++ toString targetId

/-- The control-channel bubble published for an initial draft. -/
def draft_bubble (name text : String) : String :=
  "*AI Draft Suggestion for @" ++ name ++ "*\n\n" ++ text ++ "\n\n"

/-- The control-channel bubble published for a rephrased draft. -/
def rephrased_bubble (name text : String) : String :=
  "*AI Draft Suggestion for @" ++ name ++ "*\n_(Rephrased)_\n\n" ++ text ++ "\n\n"

/-- The three inline buttons attached to a draft bubble. -/
def draft_buttons (targetId : Int) : List (String × String) :=
  [("✅ Approve", approve_key targetId),
   ("🔄 Rephrase", rephrase_key targetId),
   ("❌ Reject", reject_key targetId)]

/-- Network oracle for one pipeline run: whether peer resolution succeeds,
what the history fetch yields (none models a fetch error; the list is in
newest-first network order), the generation backend, and the message id the
control-channel publish returns (none models a publish failure). -/
structure PipelineNet where
  resolveOk : Bool
  fetched : Option (List FetchedMsg)
  backend : String → BackendResponse
  publish : Option Int

/-- main.rs process_ai_draft_with_guidance: resolve the peer, fetch and
assemble history (abort silently when empty), build the prompt, generate
with fallback, publish the draft bubble with its three buttons, and only
then record the Draft and PendingRephrase entries. -/
def process_ai_draft_with_guidance (net : PipelineNet) (user : TrackedUser) (peerId : Int)
    (st : BotState) (rephrase_guidance : Option String) :
    Except String Unit × BotState × List BotAction :=
  if net.resolveOk = false then (.error "Could not resolve peer to fetch history", st, [])
  else
    match net.fetched with
    | none => (.error "Failed to fetch message history", st, [])
    | some msgs =>
      let history_buf := buildHistory (msgs.take st.config.settings.history_limit)
      if history_buf.isEmpty then (.ok (), st, [])
      else
        let system_prompt :=
          mkSystemPrompt st.config.ai.base_system_prompt user.system_prompt rephrase_guidance
        match (generate_reply_with_fallback net.backend st.config.ai.models).1 with
        | .error _ => (.error "Failed to generate AI reply", st,
            [.generationCall system_prompt history_buf])
        | .ok response_text =>
          let target_id := peerId
          match net.publish with
          | none => (.error "Failed to send draft via bot", st,
              [.generationCall system_prompt history_buf])
          | some message_id =>
            (.ok (),
             { st with
               draft_messages :=
                 insertK st.draft_messages (approve_key target_id) (target_id, response_text),
               pending_rephrase :=
                 insertK st.pending_rephrase target_id
                   ⟨st.bot_self_id, message_id, history_buf⟩ },
             [.generationCall system_prompt history_buf,
              .publishedDraft st.bot_self_id (draft_bubble user.name response_text)
                (draft_buttons target_id)])

/-- Network oracle for a regeneration run (no history fetch happens). -/
structure RegenNet where
  backend : String → BackendResponse
  publish : Option Int

/-- main.rs regenerate_with_guidance: rebuild the prompt with the guidance
appended, regenerate over the captured history, publish the rephrased
bubble and replace the Draft and PendingRephrase entries. -/
def regenerate_with_guidance (net : RegenNet) (user : TrackedUser) (peerId : Int)
    (st : BotState) (guidance : String) (history : List ChatMessage) :
    Except String Unit × BotState × List BotAction :=
  let system_prompt :=
    mkSystemPrompt st.config.ai.base_system_prompt user.system_prompt (some guidance)
  match (generate_reply_with_fallback net.backend st.config.ai.models).1 with
  | .error _ => (.error "Failed to generate AI reply with guidance", st,
      [.generationCall system_prompt history])
  | .ok response_text =>
    let target_id := peerId
    match net.publish with
    | none => (.error "Failed to send rephrased draft via bot", st,
        [.generationCall system_prompt history])
    | some message_id =>
      (.ok (),
       { st with
         draft_messages :=
           insertK st.draft_messages (approve_key target_id) (target_id, response_text),
         pending_rephrase :=
           insertK st.pending_rephrase target_id ⟨st.bot_self_id, message_id, history⟩ },
       [.generationCall system_prompt history,
        .publishedDraft st.bot_self_id (rephrased_bubble user.name response_text)
          (draft_buttons target_id)])

/-! ### Approval state machine (main.rs handle_bot_callback) -/

/-- Network oracle for one callback handling run. -/
structure CallbackNet where
  answerOk : Bool
  resolveOk : Bool
  sendOk : Bool
  editOk : Bool

/-- The prompt the bubble is edited to when rephrase is pressed. -/
def rephrase_prompt_text : String :=
  "🔄 *Rephrase Mode*\n\nPlease send me the guidance for rephrasing (e.g., \"the name of user is John\")"

/-- main.rs handle_bot_callback: answer the press, then dispatch on the
token. Approve removes the Draft (stale token fails with draft-not-found),
sends the stored text to the target, edits the bubble to the sent text and
removes the PendingRephrase entry. Rephrase edits the bubble to a guidance
prompt. Reject removes both entries and edits the bubble to a marker. -/
def handle_bot_callback (net : CallbackNet) (st : BotState) (data : String)
    (chatId messageId : Int) (cbId : String) :
    Except String Unit × BotState × List BotAction :=
  if net.answerOk = false then (.error "Failed to answer callback query", st, [])
  else
    let acts := [BotAction.answeredCallback cbId]
    if strStartsWith data "approve:" then
      match lookupK st.draft_messages data with
      | none => (.error "Draft message not found", st, acts)
      | some (target_id, message_text) =>
        let st1 := { st with draft_messages := eraseK st.draft_messages data }
        if net.resolveOk = false then (.error "Failed to resolve target peer", st1, acts)
        else if net.sendOk = false then
          (.error "Failed to send approved message", st1, acts)
        else
          let acts := acts ++ [BotAction.sentToPeer target_id message_text]
          if net.editOk = false then (.error "Failed to edit message", st1, acts)
          else
            (.ok (),
             { st1 with pending_rephrase := eraseK st1.pending_rephrase target_id },
             acts ++ [BotAction.editedMessage chatId messageId message_text])
    else if strStartsWith data "rephrase:" then
      match parseIntStr (strDrop data 9) with
      | none => (.error "Failed to parse target_id", st, acts)
      | some _ =>
        if net.editOk = false then (.error "Failed to edit message", st, acts)
        else (.ok (), st, acts ++ [BotAction.editedMessage chatId messageId rephrase_prompt_text])
    else if strStartsWith data "reject:" then
      match parseIntStr (strDrop data 7) with
      | none => (.error "Failed to parse target_id", st, acts)
      | some target_id =>
        let st1 := { st with
          draft_messages := eraseK st.draft_messages (approve_key target_id),
          pending_rephrase := eraseK st.pending_rephrase target_id }
        if net.editOk = false then (.error "Failed to edit message", st1, acts)
        else (.ok (), st1, acts ++ [BotAction.editedMessage chatId messageId "❌ *Rejected*"])
    else (.ok (), st, acts)

/-! ### Operator guidance messages (main.rs handle_bot_message) -/

/-- Network oracle for one control-channel message handling run. -/
structure MessageNet where
  backend : String → BackendResponse
  publish : Option Int
  errSendOk : Bool

/-- The per-target loop of handle_bot_message (main.rs lines 619-669): pop
the PendingRephrase of the target, look the tracked user up under
PeerId::chat(target_id), and regenerate; a regeneration failure is reported
to the operator and the loop continues, while a missing entry or user
aborts the whole handler with an error. -/
def process_rephrase_targets (net : MessageNet) (st : BotState) (chatId : Int)
    (text : String) : List Int → Except String Unit × BotState × List BotAction
  | [] => (.ok (), st, [])
  | target_id :: rest =>
    match lookupK st.pending_rephrase target_id with
    | none => (.error "No pending rephrase", st, [])
    | some entry =>
      let st1 := { st with pending_rephrase := eraseK st.pending_rephrase target_id }
      match lookupK st1.users (PeerId.chat target_id) with
      | none => (.error "User not found", st1, [])
      | some user =>
        let r := regenerate_with_guidance ⟨net.backend, net.publish⟩
          user target_id st1 text entry.history
        match r.1 with
        | .ok _ =>
          let r' := process_rephrase_targets net r.2.1 chatId text rest
          (r'.1, r'.2.1, r.2.2 ++ r'.2.2)
        | .error e =>
          if net.errSendOk = false then
            (.error "Failed to send error message", r.2.1, r.2.2)
          else
            let r' := process_rephrase_targets net r.2.1 chatId text rest
            (r'.1, r'.2.1,
             r.2.2 ++ [BotAction.sentErrorMessage chatId ("❌ Failed to regenerate: " ++ e)] ++ r'.2.2)

/-- main.rs handle_bot_message: ignore empty texts, messages not from the
operator, and messages while no rephrase is pending; otherwise treat the
text as guidance for every currently pending target. -/
def handle_bot_message (net : MessageNet) (st : BotState) (fromId chatId : Int)
    (text : Option String) : Except String Unit × BotState × List BotAction :=
  match text with
  | none => (.ok (), st, [])
  | some t =>
    if t = "" then (.ok (), st, [])
    else if fromId ≠ st.bot_self_id then (.ok (), st, [])
    else
      let targets := st.pending_rephrase.map (fun p => p.1)
      if targets.isEmpty then (.ok (), st, [])
      else process_rephrase_targets net st chatId t targets

/-! ### Debounce scheduler (main.rs handle_update and the spawned timer) -/

/-- main.rs handle_update for a new inbound message: when the peer is a
tracked user, abort and discard any pending debounce handle for the peer,
then spawn a fresh delayed trigger and store its handle. newHandle is the
identity of the freshly spawned timer task. -/
def handle_update (st : BotState) (peer : PeerId) (newHandle : Nat) : BotState × List BotAction :=
  match lookupK st.users peer with
  | none => (st, [])
  | some _ =>
    let cancelActs :=
      match lookupK st.pending_tasks peer with
      | some h => [BotAction.abortedHandle h]
      | none => []
    let st1 := { st with pending_tasks := eraseK st.pending_tasks peer }
    ({ st1 with pending_tasks := insertK st1.pending_tasks peer newHandle },
     cancelActs ++ [BotAction.spawnedDebounce peer newHandle])

/-- The body the debounce timer runs when it fires (main.rs lines 259-277):
remove its own handle from the state, then invoke the draft pipeline. The
returned state is the state at the moment the pipeline is invoked. -/
def debounce_trigger_fire (st : BotState) (peer : PeerId) : BotState × List BotAction :=
  ({ st with pending_tasks := eraseK st.pending_tasks peer },
   [BotAction.invokedPipeline peer])

/-! ### History assembly properties (C8) -/

theorem buildHistory_foldl (l : List FetchedMsg) :
    ∀ acc : List ChatMessage,
      l.foldl (fun buf m => if m.text = "" then buf else msgToChat m :: buf) acc
        = ((l.filter fun m => decide (m.text ≠ "")).map msgToChat).reverse ++ acc := by
  induction l with
  | nil => intro acc; simp
  | cons m t ih =>
    intro acc
    by_cases h : m.text = ""
    · simp [List.filter_cons, h, ih]
    · simp [List.filter_cons, h, ih ((msgToChat m) :: acc)]

theorem buildHistory_eq (l : List FetchedMsg) :
    buildHistory l = ((l.filter fun m => decide (m.text ≠ "")).map msgToChat).reverse := by
  simpa using buildHistory_foldl l []

/-- Claim C8: the history assembled by the draft pipeline from the newest-first
fetched sequence, truncated at history_limit by the iterator, holds at most
history_limit messages, equals the reversal (hence oldest-first ordering) of
the non-empty fetched messages mapped through the role tagging, contains no
empty text, and tags a message "assistant" exactly when it was sent by the
operator (outgoing) and "user" otherwise. -/
theorem history_assembly (msgs : List FetchedMsg) (limit : Nat) :
    (buildHistory (msgs.take limit)).length ≤ limit ∧
    buildHistory (msgs.take limit)
      = (((msgs.take limit).filter fun m => decide (m.text ≠ "")).map msgToChat).reverse ∧
    (buildHistory (msgs.take limit)).all (fun c => decide (c.content ≠ "")) = true ∧
    (∀ m : FetchedMsg,
      (msgToChat m).role = (if m.outgoing then "assistant" else "user") ∧
      (msgToChat m).content = m.text) := by
  refine ⟨?_, buildHistory_eq _, ?_, fun m => ⟨rfl, rfl⟩⟩
  · rw [buildHistory_eq]
    calc ((((msgs.take limit).filter fun m => decide (m.text ≠ "")).map msgToChat).reverse).length
        = (((msgs.take limit).filter fun m => decide (m.text ≠ "")).map msgToChat).length := by
          rw [List.length_reverse]
      _ = ((msgs.take limit).filter fun m => decide (m.text ≠ "")).length := by
          rw [List.length_map]
      _ ≤ (msgs.take limit).length := List.length_filter_le _ _
      _ ≤ limit := List.length_take_le _ _
  · rw [buildHistory_eq]
    rw [List.all_eq_true]
    intro c hc
    rw [List.mem_reverse, List.mem_map] at hc
    obtain ⟨m, hm, hconv⟩ := hc
    rw [List.mem_filter] at hm
    have hne : m.text ≠ "" := by simpa using hm.2
    subst hconv
    simpa [msgToChat] using hne

/-! ### Pipeline state discipline (C7) -/

/-- Claim C7: the draft pipeline mutates the orchestration state exactly when
every step up to and including the control-channel publish succeeded, and
then records exactly the Draft and PendingRephrase entries; with an empty
assembled history it returns success silently with no publish and no state
change; any failing step leaves the state exactly as before with no draft
published. -/
theorem pipeline_mutates_only_after_publish :
    (∀ (net : PipelineNet) (user : TrackedUser) (pid : Int) (st : BotState)
        (g : Option String),
      (process_ai_draft_with_guidance net user pid st g).1 ≠ .ok () →
      (process_ai_draft_with_guidance net user pid st g).2.1 = st ∧
      (∀ c t b, BotAction.publishedDraft c t b ∉ (process_ai_draft_with_guidance net user pid st g).2.2)) ∧
    (∀ (net : PipelineNet) (user : TrackedUser) (pid : Int) (st : BotState)
        (g : Option String) (msgs : List FetchedMsg),
      net.resolveOk = true → net.fetched = some msgs →
      buildHistory (msgs.take st.config.settings.history_limit) = [] →
      process_ai_draft_with_guidance net user pid st g = (.ok (), st, [])) ∧
    (∀ (net : PipelineNet) (user : TrackedUser) (pid : Int) (st : BotState)
        (g : Option String),
      (process_ai_draft_with_guidance net user pid st g).2.1 ≠ st →
      (process_ai_draft_with_guidance net user pid st g).1 = .ok () ∧
      ∃ msgs t mid,
        net.resolveOk = true ∧ net.fetched = some msgs ∧
        (generate_reply_with_fallback net.backend st.config.ai.models).1 = .ok t ∧
        net.publish = some mid ∧
        (process_ai_draft_with_guidance net user pid st g).2.1 =
          { st with
            draft_messages := insertK st.draft_messages (approve_key pid) (pid, t),
            pending_rephrase := insertK st.pending_rephrase pid
              ⟨st.bot_self_id, mid, buildHistory (msgs.take st.config.settings.history_limit)⟩ } ∧
        BotAction.publishedDraft st.bot_self_id (draft_bubble user.name t) (draft_buttons pid)
          ∈ (process_ai_draft_with_guidance net user pid st g).2.2) := by
  have key : ∀ (net : PipelineNet) (user : TrackedUser) (pid : Int) (st : BotState)
      (g : Option String),
      ((process_ai_draft_with_guidance net user pid st g).2.1 = st ∧
        (process_ai_draft_with_guidance net user pid st g).1 ≠ .ok () ∧
        (∀ c t b, BotAction.publishedDraft c t b ∉ (process_ai_draft_with_guidance net user pid st g).2.2)) ∨
      ((process_ai_draft_with_guidance net user pid st g).2.1 = st ∧
        process_ai_draft_with_guidance net user pid st g = (.ok (), st, [])) ∨
      ((process_ai_draft_with_guidance net user pid st g).1 = .ok () ∧
        ∃ msgs t mid,
          net.resolveOk = true ∧ net.fetched = some msgs ∧
          (generate_reply_with_fallback net.backend st.config.ai.models).1 = .ok t ∧
          net.publish = some mid ∧
          (process_ai_draft_with_guidance net user pid st g).2.1 =
            { st with
              draft_messages := insertK st.draft_messages (approve_key pid) (pid, t),
              pending_rephrase := insertK st.pending_rephrase pid
                ⟨st.bot_self_id, mid, buildHistory (msgs.take st.config.settings.history_limit)⟩ } ∧
          BotAction.publishedDraft st.bot_self_id (draft_bubble user.name t) (draft_buttons pid)
            ∈ (process_ai_draft_with_guidance net user pid st g).2.2) := by
    intro net user pid st g
    unfold process_ai_draft_with_guidance
    cases hres : net.resolveOk with
    | false => left; simp
    | true =>
      cases hf : net.fetched with
      | none => left; simp
      | some msgs =>
        by_cases hh : (buildHistory (msgs.take st.config.settings.history_limit)).isEmpty = true
        · right; left; simp [hh]
        · cases hgen : (generate_reply_with_fallback net.backend st.config.ai.models).1 with
          | error e => left; simp [hh, hgen]
          | ok t =>
            cases hpub : net.publish with
            | none => left; simp [hh, hgen]
            | some mid =>
              right; right
              constructor
              · simp [hh, hgen]
              · exact ⟨msgs, t, mid, rfl, rfl, rfl, rfl, by simp [hh, hgen], by simp [hh, hgen]⟩
  refine ⟨?_, ?_, ?_⟩
  · intro net user pid st g hne
    rcases key net user pid st g with ⟨h1, _, h3⟩ | ⟨h1, h2⟩ | ⟨h1, _⟩
    · exact ⟨h1, h3⟩
    · exact absurd (by rw [h2]) hne
    · exact absurd h1 hne
  · intro net user pid st g msgs hres hf hh
    unfold process_ai_draft_with_guidance
    simp [hres, hf, hh]
  · intro net user pid st g hne
    rcases key net user pid st g with ⟨h1, _, _⟩ | ⟨h1, _⟩ | ⟨h1, h2⟩
    · exact absurd h1 hne
    · exact absurd h1 hne
    · exact ⟨h1, h2⟩

def c7User : TrackedUser := ⟨42, "Ann", "be terse"⟩

def c7State : BotState :=
  { pending_tasks := [], users := [(PeerId.user 42, c7User)],
    config := ⟨⟨["m"], none⟩, ⟨25⟩⟩, bot_self_id := 7,
    draft_messages := [], pending_rephrase := [] }

def c7NetEmpty : PipelineNet :=
  ⟨true, some [], fun _ => ⟨200, "", some ["text"]⟩, some 100⟩

theorem pipeline_mutates_only_after_publish_witness :
    process_ai_draft_with_guidance c7NetEmpty c7User 42 c7State none = (.ok (), c7State, []) :=
  pipeline_mutates_only_after_publish.2.1 c7NetEmpty c7User 42 c7State none [] rfl rfl rfl

/-! ### Approve transition (C4) -/

/-- Claim C4: an approve press whose token holds a recorded Draft removes the
entry, sends the stored text to the target conversation, edits the control
bubble to the sent text, and leaves the PendingRephrase entry for that
target absent; when the token holds no Draft the handler fails with the
draft-not-found error, performs no send, and leaves the state unchanged. -/
theorem approve_press_handling :
    (∀ (net : CallbackNet) (st : BotState) (data : String) (chatId messageId : Int)
        (cbId : String) (target : Int) (text : String),
      net.answerOk = true → net.resolveOk = true → net.sendOk = true → net.editOk = true →
      strStartsWith data "approve:" = true →
      lookupK st.draft_messages data = some (target, text) →
      handle_bot_callback net st data chatId messageId cbId =
        (.ok (),
         { st with draft_messages := eraseK st.draft_messages data,
                   pending_rephrase := eraseK st.pending_rephrase target },
         [BotAction.answeredCallback cbId, BotAction.sentToPeer target text,
          BotAction.editedMessage chatId messageId text]) ∧
      lookupK (handle_bot_callback net st data chatId messageId cbId).2.1.pending_rephrase target
        = none) ∧
    (∀ (net : CallbackNet) (st : BotState) (data : String) (chatId messageId : Int)
        (cbId : String),
      net.answerOk = true →
      strStartsWith data "approve:" = true →
      lookupK st.draft_messages data = none →
      handle_bot_callback net st data chatId messageId cbId =
        (.error "Draft message not found", st, [BotAction.answeredCallback cbId])) := by
  constructor
  · intro net st data chatId messageId cbId target text ha hr hs he hpre hlook
    have heq : handle_bot_callback net st data chatId messageId cbId =
        (.ok (),
         { st with draft_messages := eraseK st.draft_messages data,
                   pending_rephrase := eraseK st.pending_rephrase target },
         [BotAction.answeredCallback cbId, BotAction.sentToPeer target text,
          BotAction.editedMessage chatId messageId text]) := by
      unfold handle_bot_callback
      simp [ha, hr, hs, he, hpre, hlook]
    refine ⟨heq, ?_⟩
    rw [heq]
    exact lookupK_eraseK_self _ _
  · intro net st data chatId messageId cbId ha hpre hlook
    unfold handle_bot_callback
    simp [ha, hpre, hlook]

def c4State : BotState :=
  { pending_tasks := [], users := [],
    config := ⟨⟨["m"], none⟩, ⟨25⟩⟩, bot_self_id := 7,
    draft_messages := [(approve_key 42, (42, "hello there"))],
    pending_rephrase := [(42, ⟨7, 100, [⟨"user", "hi"⟩]⟩)] }

theorem approve_press_handling_witness :
    handle_bot_callback ⟨true, true, true, true⟩ c4State (approve_key 42) 7 100 "cb" =
      (.ok (),
       { c4State with draft_messages := eraseK c4State.draft_messages (approve_key 42),
                      pending_rephrase := eraseK c4State.pending_rephrase 42 },
       [BotAction.answeredCallback "cb", BotAction.sentToPeer 42 "hello there",
        BotAction.editedMessage 7 100 "hello there"]) ∧
    lookupK (handle_bot_callback ⟨true, true, true, true⟩ c4State (approve_key 42) 7 100
        "cb").2.1.pending_rephrase 42 = none :=
  approve_press_handling.1 ⟨true, true, true, true⟩ c4State (approve_key 42) 7 100 "cb"
    42 "hello there" rfl rfl rfl rfl (by decide) (by decide)

/-! ### Draft overwriting and the shared approve token (C2) -/

def c2User : TrackedUser := ⟨42, "Ann", "be terse"⟩

def c2State0 : BotState :=
  { pending_tasks := [], users := [(PeerId.user 42, c2User)],
    config := ⟨⟨["m"], none⟩, ⟨25⟩⟩, bot_self_id := 7,
    draft_messages := [], pending_rephrase := [] }

def c2Net1 : PipelineNet :=
  ⟨true, some [⟨"hi", false⟩], fun _ => ⟨200, "", some ["draft one"]⟩, some 100⟩

def c2Net2 : PipelineNet :=
  ⟨true, some [⟨"hi", false⟩], fun _ => ⟨200, "", some ["draft two"]⟩, some 101⟩

/-- The state after publishing the first draft for target 42. -/
def c2State1 : BotState := (process_ai_draft_with_guidance c2Net1 c2User 42 c2State0 none).2.1

/-- The state after publishing a second draft for the same target 42. -/
def c2State2 : BotState := (process_ai_draft_with_guidance c2Net2 c2User 42 c2State1 none).2.1

/-- Claim C2 counterexample: after a second draft for target 42 overwrites the
first, pressing the FIRST draft approve button (its token is the very same
string "approve:42" the second draft uses) does NOT fail with the
draft-not-found error: the press succeeds and sends the second draft text. -/
theorem stale_approve_button_not_orphaned :
    (handle_bot_callback ⟨true, true, true, true⟩ c2State2 (approve_key 42) 7 101 "cb").1
        ≠ .error "Draft message not found" ∧
    (handle_bot_callback ⟨true, true, true, true⟩ c2State2 (approve_key 42) 7 101 "cb").1
        = .ok () ∧
    BotAction.sentToPeer 42 "draft two"
        ∈ (handle_bot_callback ⟨true, true, true, true⟩ c2State2 (approve_key 42) 7 101 "cb").2.2 := by
  decide

/-- Claim C2 amended: publishing a second draft (here: any draft over any prior
state) overwrites the Draft and PendingRephrase entries for the target, and
because every draft of a target carries the identical approve token,
pressing the first draft approve button afterwards succeeds and sends the
LATEST draft text instead of failing with draft-not-found. -/
theorem second_draft_overwrites :
    ∀ (net2 : PipelineNet) (user : TrackedUser) (pid : Int) (st : BotState) (g : Option String)
      (msgs : List FetchedMsg) (t2 : String) (mid2 chatId messageId : Int) (cbId : String),
      net2.resolveOk = true → net2.fetched = some msgs →
      buildHistory (msgs.take st.config.settings.history_limit) ≠ [] →
      (generate_reply_with_fallback net2.backend st.config.ai.models).1 = .ok t2 →
      net2.publish = some mid2 →
      lookupK (process_ai_draft_with_guidance net2 user pid st g).2.1.draft_messages
          (approve_key pid) = some (pid, t2) ∧
      lookupK (process_ai_draft_with_guidance net2 user pid st g).2.1.pending_rephrase pid
        = some ⟨st.bot_self_id, mid2, buildHistory (msgs.take st.config.settings.history_limit)⟩ ∧
      (handle_bot_callback ⟨true, true, true, true⟩
          (process_ai_draft_with_guidance net2 user pid st g).2.1
          (approve_key pid) chatId messageId cbId).1 = .ok () ∧
      BotAction.sentToPeer pid t2
        ∈ (handle_bot_callback ⟨true, true, true, true⟩
            (process_ai_draft_with_guidance net2 user pid st g).2.1
            (approve_key pid) chatId messageId cbId).2.2 := by
  intro net2 user pid st g msgs t2 mid2 chatId messageId cbId hres hf hne hgen hpub
  have hh2 : (buildHistory (msgs.take st.config.settings.history_limit)).isEmpty = false := by
    cases hbl : buildHistory (msgs.take st.config.settings.history_limit) with
    | nil => exact absurd hbl hne
    | cons a l => rfl
  have hpipe : (process_ai_draft_with_guidance net2 user pid st g).2.1 =
      { st with
        draft_messages := insertK st.draft_messages (approve_key pid) (pid, t2),
        pending_rephrase := insertK st.pending_rephrase pid
          ⟨st.bot_self_id, mid2, buildHistory (msgs.take st.config.settings.history_limit)⟩ } := by
    unfold process_ai_draft_with_guidance
    simp [hres, hf, hh2, hgen, hpub]
  have hsw : strStartsWith (approve_key pid) "approve:" = true := by
    simpa [approve_key] using strStartsWith_append "approve:" (toString pid)
  have hlk : lookupK (process_ai_draft_with_guidance net2 user pid st g).2.1.draft_messages
      (approve_key pid) = some (pid, t2) := by
    rw [hpipe]
    exact lookupK_insertK_self _ _ _
  refine ⟨hlk, ?_, ?_, ?_⟩
  · rw [hpipe]
    exact lookupK_insertK_self _ _ _
  · unfold handle_bot_callback
    simp [hsw, hlk]
  · unfold handle_bot_callback
    simp [hsw, hlk]

theorem second_draft_overwrites_witness :
    lookupK (process_ai_draft_with_guidance c2Net2 c2User 42 c2State1 none).2.1.draft_messages
        (approve_key 42) = some (42, "draft two") ∧
    lookupK (process_ai_draft_with_guidance c2Net2 c2User 42 c2State1 none).2.1.pending_rephrase 42
      = some ⟨7, 101, buildHistory ([⟨"hi", false⟩].take c2State1.config.settings.history_limit)⟩ ∧
    (handle_bot_callback ⟨true, true, true, true⟩
        (process_ai_draft_with_guidance c2Net2 c2User 42 c2State1 none).2.1
        (approve_key 42) 7 101 "cb").1 = .ok () ∧
    BotAction.sentToPeer 42 "draft two"
      ∈ (handle_bot_callback ⟨true, true, true, true⟩
          (process_ai_draft_with_guidance c2Net2 c2User 42 c2State1 none).2.1
          (approve_key 42) 7 101 "cb").2.2 := by
  have h := second_draft_overwrites c2Net2 c2User 42 c2State1 none [⟨"hi", false⟩]
    "draft two" 101 7 101 "cb" rfl rfl (by decide) (by decide) rfl
  simpa using h

/-! ### Failing network calls and state mutation (C5) -/

def c5State : BotState :=
  { pending_tasks := [], users := [],
    config := ⟨⟨["m"], none⟩, ⟨25⟩⟩, bot_self_id := 7,
    draft_messages := [(approve_key 42, (42, "hello"))], pending_rephrase := [] }

/-- Claim C5 counterexample: with the draft recorded, an approve press whose
network send fails ends in an error, yet the draft table has been mutated
(the Draft entry was consumed before the send), contradicting the claim
that every failing attempt leaves the draft table exactly as before. -/
theorem network_failure_mutates_draft_table :
    (handle_bot_callback ⟨true, true, false, true⟩ c5State (approve_key 42) 7 100 "cb").1
        ≠ .ok () ∧
    lookupK c5State.draft_messages (approve_key 42) = some (42, "hello") ∧
    lookupK (handle_bot_callback ⟨true, true, false, true⟩ c5State (approve_key 42) 7 100
        "cb").2.1.draft_messages (approve_key 42) = none := by
  decide

/-- Claim C5 amended: a network-client failure ends the initiating task with an
error and without retrying; the debounce handles, user registry and (in the
approve path) the pending-rephrase table are left exactly as before, but an
entry that the code consumes before the network call is not restored: the
approve path has already removed the Draft, and the guidance path has
already popped the PendingRephrase of the target being processed. -/
theorem network_failure_state_effects :
    (∀ (net : CallbackNet) (st : BotState) (data : String) (chatId messageId : Int)
        (cbId : String) (target : Int) (text : String),
      net.answerOk = true →
      (net.resolveOk = false ∨ net.sendOk = false ∨ net.editOk = false) →
      strStartsWith data "approve:" = true →
      lookupK st.draft_messages data = some (target, text) →
      (handle_bot_callback net st data chatId messageId cbId).1 ≠ .ok () ∧
      (handle_bot_callback net st data chatId messageId cbId).2.1.pending_tasks
        = st.pending_tasks ∧
      (handle_bot_callback net st data chatId messageId cbId).2.1.users = st.users ∧
      (handle_bot_callback net st data chatId messageId cbId).2.1.pending_rephrase
        = st.pending_rephrase ∧
      (handle_bot_callback net st data chatId messageId cbId).2.1.draft_messages
        = eraseK st.draft_messages data) ∧
    (∀ (net : MessageNet) (st : BotState) (chatId : Int) (text : String)
        (target : Int) (entry : RephraseEntry) (rest : List (Int × RephraseEntry)),
      st.pending_rephrase = (target, entry) :: rest →
      lookupK st.users (PeerId.chat target) = none →
      text ≠ "" →
      (handle_bot_message net st st.bot_self_id chatId (some text)).1 ≠ .ok () ∧
      (handle_bot_message net st st.bot_self_id chatId (some text)).2.1.pending_rephrase
        = eraseK st.pending_rephrase target ∧
      (handle_bot_message net st st.bot_self_id chatId (some text)).2.1.draft_messages
        = st.draft_messages ∧
      (handle_bot_message net st st.bot_self_id chatId (some text)).2.1.pending_tasks
        = st.pending_tasks) := by
  constructor
  · intro net st data chatId messageId cbId target text ha hfail hpre hlook
    rcases hfail with h | h | h
    · unfold handle_bot_callback
      simp [ha, h, hpre, hlook]
    · cases hr : net.resolveOk
      · unfold handle_bot_callback
        simp [ha, hr, hpre, hlook]
      · unfold handle_bot_callback
        simp [ha, hr, h, hpre, hlook]
    · cases hr : net.resolveOk
      · unfold handle_bot_callback
        simp [ha, hr, hpre, hlook]
      · cases hs : net.sendOk
        · unfold handle_bot_callback
          simp [ha, hr, hs, hpre, hlook]
        · unfold handle_bot_callback
          simp [ha, hr, hs, h, hpre, hlook]
  · intro net st chatId text target entry rest hpend husers htext
    unfold handle_bot_message
    simp only [htext, if_false, ne_eq, not_true_eq_false]
    unfold process_rephrase_targets
    simp [hpend, lookupK, husers, htext]

def c3MsgState : BotState :=
  { pending_tasks := [], users := [(PeerId.user 42, ⟨42, "Ann", "be terse"⟩)],
    config := ⟨⟨["m"], none⟩, ⟨25⟩⟩, bot_self_id := 7,
    draft_messages := [], pending_rephrase := [(42, ⟨7, 100, [⟨"user", "hi"⟩]⟩)] }

theorem network_failure_state_effects_witness :
    (handle_bot_callback ⟨true, false, true, true⟩ c5State (approve_key 42) 7 100 "cb").1
        ≠ .ok () ∧
    (handle_bot_callback ⟨true, false, true, true⟩ c5State (approve_key 42) 7 100
        "cb").2.1.pending_tasks = c5State.pending_tasks ∧
    (handle_bot_callback ⟨true, false, true, true⟩ c5State (approve_key 42) 7 100
        "cb").2.1.users = c5State.users ∧
    (handle_bot_callback ⟨true, false, true, true⟩ c5State (approve_key 42) 7 100
        "cb").2.1.pending_rephrase = c5State.pending_rephrase ∧
    (handle_bot_callback ⟨true, false, true, true⟩ c5State (approve_key 42) 7 100
        "cb").2.1.draft_messages = eraseK c5State.draft_messages (approve_key 42) :=
  network_failure_state_effects.1 ⟨true, false, true, true⟩ c5State (approve_key 42) 7 100 "cb"
    42 "hello" rfl (Or.inl rfl) (by decide) (by decide)

/-! ### Rephrase guidance user resolution (C3) -/

theorem lookupK_users_chat_none (users : List (PeerId × TrackedUser)) (t : Int)
    (h : ∀ p ∈ users, p.1.kind = PeerKind.user) :
    lookupK users (PeerId.chat t) = none := by
  induction users with
  | nil => rfl
  | cons p rest ih =>
    have hk := h p (by simp)
    have hne : ¬ (p.1 = PeerId.chat t) := by
      intro he
      rw [he] at hk
      exact PeerKind.noConfusion hk
    simp only [lookupK, hne, if_false]
    exact ih (fun q hq => h q (by simp [hq]))

/-- Claim C3: the guidance handler pops the PendingRephrase of a pending target
but then looks the tracked user up under PeerId.chat of the bare id, while
the registry is keyed by TrackedUser.peer_id, which is PeerId.user of the
id; the lookup therefore always fails, the handler ends with the
user-not-found error, the draft pipeline is never re-invoked (no generation
call happens), and the popped PendingRephrase entry stays removed. -/
theorem rephrase_user_resolution_fails :
    ∀ (net : MessageNet) (st : BotState) (chatId : Int) (text : String)
      (target : Int) (entry : RephraseEntry) (rest : List (Int × RephraseEntry)),
      (∀ p ∈ st.users, p.1.kind = PeerKind.user) →
      st.pending_rephrase = (target, entry) :: rest →
      text ≠ "" →
      (handle_bot_message net st st.bot_self_id chatId (some text)).1
        = .error "User not found" ∧
      (∀ sp h, BotAction.generationCall sp h
        ∉ (handle_bot_message net st st.bot_self_id chatId (some text)).2.2) ∧
      lookupK (handle_bot_message net st st.bot_self_id chatId
        (some text)).2.1.pending_rephrase target = none := by
  intro net st chatId text target entry rest husers hpend htext
  have hchat : lookupK st.users (PeerId.chat target) = none :=
    lookupK_users_chat_none st.users target husers
  have heq : handle_bot_message net st st.bot_self_id chatId (some text)
      = (.error "User not found",
         { st with pending_rephrase := eraseK st.pending_rephrase target }, []) := by
    unfold handle_bot_message
    simp only [htext, if_false, ne_eq, not_true_eq_false]
    unfold process_rephrase_targets
    simp [hpend, lookupK, hchat, htext]
  rw [heq]
  exact ⟨rfl, fun sp h => by simp, lookupK_eraseK_self _ _⟩

theorem rephrase_user_resolution_fails_witness :
    (handle_bot_message ⟨fun _ => ⟨200, "", some ["t"]⟩, some 101, true⟩ c3MsgState
        c3MsgState.bot_self_id 7 (some "mention the weekend")).1 = .error "User not found" ∧
    lookupK (handle_bot_message ⟨fun _ => ⟨200, "", some ["t"]⟩, some 101, true⟩ c3MsgState
        c3MsgState.bot_self_id 7 (some "mention the weekend")).2.1.pending_rephrase 42 = none := by
  have h := rephrase_user_resolution_fails ⟨fun _ => ⟨200, "", some ["t"]⟩, some 101, true⟩
    c3MsgState 7 "mention the weekend" 42 ⟨7, 100, [⟨"user", "hi"⟩]⟩ []
    (by decide) rfl (by decide)
  exact ⟨h.1, h.2.2⟩

/-! ### Debounce handle uniqueness (C9) -/

/-- A map state holds at most one binding per key. -/
def keysNodup {K V : Type} (m : List (K × V)) : Prop := (m.map Prod.fst).Nodup

theorem keysNodup_eraseK {K V : Type} [DecidableEq K] (m : List (K × V)) (k : K)
    (h : keysNodup m) : keysNodup (eraseK m k) := by
  unfold keysNodup at *
  exact h.sublist (List.Sublist.map Prod.fst (List.filter_sublist m))

theorem not_mem_keys_eraseK {K V : Type} [DecidableEq K] (m : List (K × V)) (k : K) :
    k ∉ (eraseK m k).map Prod.fst := by
  intro hmem
  rw [List.mem_map] at hmem
  obtain ⟨p, hp, hfst⟩ := hmem
  rw [eraseK, List.mem_filter] at hp
  have := hp.2
  simp only [decide_eq_true_eq] at this
  exact this hfst

theorem keysNodup_insertK {K V : Type} [DecidableEq K] (m : List (K × V)) (k : K) (v : V)
    (h : keysNodup m) : keysNodup (insertK m k v) := by
  unfold keysNodup insertK
  rw [List.map_cons, List.nodup_cons]
  exact ⟨not_mem_keys_eraseK m k, keysNodup_eraseK m k h⟩

/-- Claim C9: handling a new inbound message from a tracked peer leaves exactly
one handle for that peer, the freshly spawned one; any prior handle is
aborted before the new timer is spawned (the abort action precedes the
spawn in the trace); key uniqueness of the handle table is preserved; and a
debounce trigger that fires removes its own handle, so the state it passes
to the draft pipeline holds no handle for the peer. -/
theorem debounce_single_handle :
    (∀ (st : BotState) (peer : PeerId) (newHandle : Nat) (u : TrackedUser),
      lookupK st.users peer = some u →
      lookupK (handle_update st peer newHandle).1.pending_tasks peer = some newHandle ∧
      (∀ h, lookupK st.pending_tasks peer = some h →
        (handle_update st peer newHandle).2
          = [BotAction.abortedHandle h, BotAction.spawnedDebounce peer newHandle]) ∧
      (lookupK st.pending_tasks peer = none →
        (handle_update st peer newHandle).2 = [BotAction.spawnedDebounce peer newHandle]) ∧
      (keysNodup st.pending_tasks →
        keysNodup (handle_update st peer newHandle).1.pending_tasks)) ∧
    (∀ (st : BotState) (peer : PeerId),
      lookupK (debounce_trigger_fire st peer).1.pending_tasks peer = none ∧
      (debounce_trigger_fire st peer).2 = [BotAction.invokedPipeline peer] ∧
      (keysNodup st.pending_tasks →
        keysNodup (debounce_trigger_fire st peer).1.pending_tasks)) := by
  constructor
  · intro st peer newHandle u hu
    refine ⟨?_, ?_, ?_, ?_⟩
    · unfold handle_update
      simp only [hu]
      exact lookupK_insertK_self _ _ _
    · intro h hh
      unfold handle_update
      simp [hu, hh]
    · intro hh
      unfold handle_update
      simp [hu, hh]
    · intro hnd
      unfold handle_update
      simp only [hu]
      exact keysNodup_insertK _ _ _ (keysNodup_eraseK _ _ hnd)
  · intro st peer
    refine ⟨?_, rfl, ?_⟩
    · unfold debounce_trigger_fire
      exact lookupK_eraseK_self _ _
    · intro hnd
      unfold debounce_trigger_fire
      exact keysNodup_eraseK _ _ hnd

def c9User : TrackedUser := ⟨42, "Ann", "be terse"⟩

def c9State : BotState :=
  { pending_tasks := [(PeerId.user 42, 5)], users := [(PeerId.user 42, c9User)],
    config := ⟨⟨["m"], none⟩, ⟨25⟩⟩, bot_self_id := 7,
    draft_messages := [], pending_rephrase := [] }

theorem debounce_single_handle_witness :
    lookupK (handle_update c9State (PeerId.user 42) 9).1.pending_tasks (PeerId.user 42)
        = some 9 ∧
    (handle_update c9State (PeerId.user 42) 9).2
      = [BotAction.abortedHandle 5, BotAction.spawnedDebounce (PeerId.user 42) 9] :=
  ⟨(debounce_single_handle.1 c9State (PeerId.user 42) 9 c9User (by decide)).1,
   (debounce_single_handle.1 c9State (PeerId.user 42) 9 c9User (by decide)).2.1 5 (by decide)⟩

/-! ### Approved text is the raw model output (C10) -/

/-- Claim C10: when a draft is published and then approved, the text sent to the
target conversation is exactly the raw generated model output stored in the
Draft entry; the control-channel bubble text additionally carries the
header and name (and, on the regeneration path, the rephrase marker) and is
never equal to the sent text. Both the initial-draft path and the
rephrased-draft path are covered. -/
theorem approved_text_is_raw_output :
    (∀ (net : PipelineNet) (user : TrackedUser) (pid : Int) (st : BotState)
        (g : Option String) (msgs : List FetchedMsg) (t : String)
        (mid chatId messageId : Int) (cbId : String),
      net.resolveOk = true → net.fetched = some msgs →
      buildHistory (msgs.take st.config.settings.history_limit) ≠ [] →
      (generate_reply_with_fallback net.backend st.config.ai.models).1 = .ok t →
      net.publish = some mid →
      BotAction.publishedDraft st.bot_self_id (draft_bubble user.name t) (draft_buttons pid)
          ∈ (process_ai_draft_with_guidance net user pid st g).2.2 ∧
      BotAction.sentToPeer pid t
          ∈ (handle_bot_callback ⟨true, true, true, true⟩
              (process_ai_draft_with_guidance net user pid st g).2.1
              (approve_key pid) chatId messageId cbId).2.2 ∧
      draft_bubble user.name t ≠ t) ∧
    (∀ (net : RegenNet) (user : TrackedUser) (pid : Int) (st : BotState)
        (guidance : String) (history : List ChatMessage) (t : String)
        (mid chatId messageId : Int) (cbId : String),
      (generate_reply_with_fallback net.backend st.config.ai.models).1 = .ok t →
      net.publish = some mid →
      BotAction.publishedDraft st.bot_self_id (rephrased_bubble user.name t) (draft_buttons pid)
          ∈ (regenerate_with_guidance net user pid st guidance history).2.2 ∧
      BotAction.sentToPeer pid t
          ∈ (handle_bot_callback ⟨true, true, true, true⟩
              (regenerate_with_guidance net user pid st guidance history).2.1
              (approve_key pid) chatId messageId cbId).2.2 ∧
      rephrased_bubble user.name t ≠ t) := by
  have hlen1 : ∀ (n t : String), (draft_bubble n t).length = 26 + n.length + 3 + t.length + 2 := by
    intro n t
    have h1 : ("*AI Draft Suggestion for @" : String).length = 26 := rfl
    have h2 : ("*\n\n" : String).length = 3 := rfl
    have h3 : ("\n\n" : String).length = 2 := rfl
    simp [draft_bubble, String.length_append, h1, h2, h3]
  have hlen2 : ∀ (n t : String),
      (rephrased_bubble n t).length = 26 + n.length + 17 + t.length + 2 := by
    intro n t
    have h1 : ("*AI Draft Suggestion for @" : String).length = 26 := rfl
    have h2 : ("*\n_(Rephrased)_\n\n" : String).length = 17 := rfl
    have h3 : ("\n\n" : String).length = 2 := rfl
    simp [rephrased_bubble, String.length_append, h1, h2, h3]
  constructor
  · intro net user pid st g msgs t mid chatId messageId cbId hres hf hne hgen hpub
    have hh2 : (buildHistory (msgs.take st.config.settings.history_limit)).isEmpty = false := by
      cases hbl : buildHistory (msgs.take st.config.settings.history_limit) with
      | nil => exact absurd hbl hne
      | cons a l => rfl
    have hpipe : (process_ai_draft_with_guidance net user pid st g).2.1 =
        { st with
          draft_messages := insertK st.draft_messages (approve_key pid) (pid, t),
          pending_rephrase := insertK st.pending_rephrase pid
            ⟨st.bot_self_id, mid, buildHistory (msgs.take st.config.settings.history_limit)⟩ } := by
      unfold process_ai_draft_with_guidance
      simp [hres, hf, hh2, hgen, hpub]
    have hacts : (process_ai_draft_with_guidance net user pid st g).2.2 =
        [BotAction.generationCall
          (mkSystemPrompt st.config.ai.base_system_prompt user.system_prompt g)
          (buildHistory (msgs.take st.config.settings.history_limit)),
         BotAction.publishedDraft st.bot_self_id (draft_bubble user.name t)
          (draft_buttons pid)] := by
      unfold process_ai_draft_with_guidance
      simp [hres, hf, hh2, hgen, hpub]
    have hsw : strStartsWith (approve_key pid) "approve:" = true := by
      simpa [approve_key] using strStartsWith_append "approve:" (toString pid)
    have hlk : lookupK (process_ai_draft_with_guidance net user pid st g).2.1.draft_messages
        (approve_key pid) = some (pid, t) := by
      rw [hpipe]
      exact lookupK_insertK_self _ _ _
    refine ⟨by rw [hacts]; simp, ?_, ?_⟩
    · unfold handle_bot_callback
      simp [hsw, hlk]
    · intro heq
      have := congrArg String.length heq
      rw [hlen1] at this
      omega
  · intro net user pid st guidance history t mid chatId messageId cbId hgen hpub
    have hregen : (regenerate_with_guidance net user pid st guidance history).2.1 =
        { st with
          draft_messages := insertK st.draft_messages (approve_key pid) (pid, t),
          pending_rephrase := insertK st.pending_rephrase pid
            ⟨st.bot_self_id, mid, history⟩ } := by
      unfold regenerate_with_guidance
      simp [hgen, hpub]
    have hacts : (regenerate_with_guidance net user pid st guidance history).2.2 =
        [BotAction.generationCall
          (mkSystemPrompt st.config.ai.base_system_prompt user.system_prompt (some guidance))
          history,
         BotAction.publishedDraft st.bot_self_id (rephrased_bubble user.name t)
          (draft_buttons pid)] := by
      unfold regenerate_with_guidance
      simp [hgen, hpub]
    have hsw : strStartsWith (approve_key pid) "approve:" = true := by
      simpa [approve_key] using strStartsWith_append "approve:" (toString pid)
    have hlk : lookupK (regenerate_with_guidance net user pid st guidance
        history).2.1.draft_messages (approve_key pid) = some (pid, t) := by
      rw [hregen]
      exact lookupK_insertK_self _ _ _
    refine ⟨by rw [hacts]; simp, ?_, ?_⟩
    · unfold handle_bot_callback
      simp [hsw, hlk]
    · intro heq
      have := congrArg String.length heq
      rw [hlen2] at this
      omega

def c10Net : PipelineNet :=
  ⟨true, some [⟨"hi", false⟩], fun _ => ⟨200, "", some ["sure, tomorrow"]⟩, some 100⟩

def c10State : BotState :=
  { pending_tasks := [], users := [(PeerId.user 42, ⟨42, "Ann", "be terse"⟩)],
    config := ⟨⟨["m"], none⟩, ⟨25⟩⟩, bot_self_id := 7,
    draft_messages := [], pending_rephrase := [] }

theorem approved_text_is_raw_output_witness :
    BotAction.publishedDraft 7 (draft_bubble "Ann" "sure, tomorrow") (draft_buttons 42)
        ∈ (process_ai_draft_with_guidance c10Net ⟨42, "Ann", "be terse"⟩ 42 c10State none).2.2 ∧
    BotAction.sentToPeer 42 "sure, tomorrow"
        ∈ (handle_bot_callback ⟨true, true, true, true⟩
            (process_ai_draft_with_guidance c10Net ⟨42, "Ann", "be terse"⟩ 42 c10State none).2.1
            (approve_key 42) 7 100 "cb").2.2 ∧
    draft_bubble "Ann" "sure, tomorrow" ≠ "sure, tomorrow" := by
  have h := approved_text_is_raw_output.1 c10Net ⟨42, "Ann", "be terse"⟩ 42 c10State none
    [⟨"hi", false⟩] "sure, tomorrow" 100 7 100 "cb" rfl rfl (by decide) (by decide) rfl
  simpa [c10State] using h
